import Mathlib

/-!
Shallow embedding of the session/connection bridge of the Bemfa MCP server
(src/server.js, first file variant, lines 1-603).

Sessions are records with the same fields as the JS session objects created
by SessionManager.create: an SSE response handle (`sseRes`), an MQTT client
handle (`mqttClient`), a connected flag and an optional stored configuration.
Client and transport handles are modelled as natural-number identifiers.
Broker-side effects (ending a client, opening a connection, subscribing,
publishing) and log lines are recorded in an explicit action list; the
outcomes of asynchronous broker callbacks (connect vs error event, subscribe
callback error, publish callback error, end callback error) are passed in as
explicit parameters, since the JS code receives them as events.
-/

/-- Configuration record stored by `MQTTHandler.configure` (src/server.js:93-100). -/
structure Config where
  host : String
  port : Nat
  clientId : String
  topic : String
  username : String
  password : String
deriving Repr, DecidableEq

/-- Session record as created by `SessionManager.create` (src/server.js:55-60):
SSE response handle, optional MQTT client handle, connected flag, optional
configuration. Handles are numeric identifiers. -/
structure Session where
  sseRes : Option Nat
  mqttClient : Option Nat
  connected : Bool
  config : Option Config
deriving Repr, DecidableEq

/-- Arguments of the configureBemfa tool (src/server.js:81): every field is
optional at the call site; `none` models an absent JS property. -/
structure ConfigureArgs where
  host : Option String
  port : Option Nat
  clientId : Option String
  topic : Option String
  username : Option String
  password : Option String
deriving Repr, DecidableEq

/-- Tool results are `{ type: "text", text: ... }` objects. -/
structure ToolResult where
  type : String
  text : String
deriving Repr, DecidableEq

/-- JS truthiness of an optional string property: absent, or present and
empty, is falsy. -/
def truthyStr : Option String → Bool
  | none => false
  | some s => !(s == "")

/-- JS truthiness of an optional numeric property: absent or 0 is falsy. -/
def truthyNat : Option Nat → Bool
  | none => false
  | some n => !(n == 0)

/-- JS `x || d` for an optional string property. -/
def strOr (o : Option String) (d : String) : String :=
  if truthyStr o then o.getD d else d

/-- JS `x || d` for an optional numeric property. -/
def natOr (o : Option Nat) (d : Nat) : Nat :=
  if truthyNat o then o.getD d else d

deriving instance DecidableEq for Except

/-- Whether the first character list is a prefix of the second. -/
def listPrefixOf : List Char → List Char → Bool
  | [], _ => true
  | _ :: _, [] => false
  | a :: as, b :: bs => a == b && listPrefixOf as bs

/-- Whether the first character list occurs contiguously in the second. -/
def listInfixOf : List Char → List Char → Bool
  | needle, [] => needle.isEmpty
  | needle, h :: t => listPrefixOf needle (h :: t) || listInfixOf needle t

/-- Broker-side effects and log lines, in program order. -/
inductive BrokerAction where
  /-- `session.mqttClient.end()` (src/server.js:134). -/
  | endClient (c : Nat)
  /-- `session.mqttClient.end(false, \x7b\x7d, cb)` (src/server.js:257). -/
  | endClientCb (c : Nat)
  /-- `mqtt.connect(url, options)` (src/server.js:153). -/
  | openConn (url : String) (clientId : String) (username : Option String)
      (password : Option String)
  /-- `client.subscribe(config.topic, cb)` (src/server.js:162). -/
  | subscribe (c : Nat) (topic : String)
  /-- Installing the `message` handler (src/server.js:171). -/
  | installHandler (c : Nat)
  /-- `session.mqttClient.publish(topic, mqttCommand, cb)` (src/server.js:230). -/
  | publish (c : Nat) (topic : String) (payload : String)
  /-- `Logger.info` line. -/
  | logInfo (msg : String)
  /-- `Logger.error` line. -/
  | logError (msg : String)
deriving Repr, DecidableEq

/-- Outcome of the asynchronous connect attempt: the broker fires either the
`connect` event or the `error` event (src/server.js:156,191). -/
inductive ConnectOutcome where
  | ack
  | err (msg : String)
deriving Repr, DecidableEq

/-- The missing-required-fields computation of configure
(src/server.js:85-86): `['clientId','topic'].filter(f => !args[f])`. -/
def missingFields (args : ConfigureArgs) : List String :=
  (if truthyStr args.clientId then [] else ["clientId"]) ++
  (if truthyStr args.topic then [] else ["topic"])

/-- The configuration snapshot stored on success (src/server.js:93-100). -/
def mkConfig (args : ConfigureArgs) : Config :=
  { host := strOr args.host "bemfa.com"
    port := natOr args.port 9501
    clientId := args.clientId.getD ""
    topic := args.topic.getD ""
    username := strOr args.username ""
    password := strOr args.password "" }

/-- `MQTTHandler.configure` (src/server.js:81-114): validates required
fields, throws listing the missing ones, otherwise stores the snapshot.
Returns (updated session, thrown-or-returned result, broker actions);
configure performs no broker action. -/
def configure (s : Session) (args : ConfigureArgs) :
    Session × Except String ToolResult × List BrokerAction :=
  let missing := missingFields args
  if missing.isEmpty then
    ({ s with config := some (mkConfig args) },
     Except.ok ⟨"text", "✅ 配置已保存，请调用 connectBemfa 进行连接"⟩, [])
  else
    (s, Except.error ("缺少必需的配置参数: " ++ String.intercalate ", " missing), [])

/-- Connection URL (src/server.js:150). -/
def mqttUrl (c : Config) : String :=
  "mqtt://" ++ c.host ++ ":" ++ toString c.port

/-- Subscribe-callback log line (src/server.js:163-167): an error is logged
as an error line, success as an info line; nothing else happens. -/
def subscribeLog (topic : String) : Option String → BrokerAction
  | some e => BrokerAction.logError ("Subscribe error " ++ e)
  | none => BrokerAction.logInfo ("Subscribed to topic " ++ topic)

/-- Result record of `MQTTHandler.connect`: `preSession` is the session state
at the point after closing the previous client (src/server.js:133-135) and
before any broker event fires — the source assigns no session field there;
`session` is the state after the connect or error event has run. -/
structure ConnectResult where
  preSession : Session
  session : Session
  result : Except String ToolResult
  actions : List BrokerAction
deriving Repr, DecidableEq

/-- `MQTTHandler.connect` (src/server.js:116-200). `newClient` is the handle
of the client object returned by `mqtt.connect`; `outcome` says which of the
`connect`/`error` events fires; `subErr` is the error argument of the
subscribe callback (fired only on the connect path). -/
def connect (s : Session) (newClient : Nat) (outcome : ConnectOutcome)
    (subErr : Option String) : ConnectResult :=
  match s.config with
  | none => ⟨s, s, Except.error "❌ 请先调用 configureBemfa 配置连接参数", []⟩
  | some cfg =>
    let closePrev : List BrokerAction :=
      match s.mqttClient with
      | some c => [BrokerAction.endClient c]
      | none => []
    let openAct := BrokerAction.openConn (mqttUrl cfg) cfg.clientId
      (if cfg.username == "" then none else some cfg.username)
      (if cfg.password == "" then none else some cfg.password)
    match outcome with
    | ConnectOutcome.ack =>
      ⟨s,
       { s with mqttClient := some newClient, connected := true },
       Except.ok ⟨"text", "✅ 成功连接到巴法云MQTT服务器，主题: " ++ cfg.topic⟩,
       closePrev ++ [openAct, BrokerAction.subscribe newClient cfg.topic,
                     subscribeLog cfg.topic subErr,
                     BrokerAction.installHandler newClient]⟩
    | ConnectOutcome.err m =>
      ⟨s, s, Except.error m, closePrev ++ [openAct]⟩

/-- Outcome of the publish callback (src/server.js:230-247). -/
inductive PubOutcome where
  | ok
  | err (msg : String)
deriving Repr, DecidableEq

/-- Result record of the remaining session operations. -/
structure OpResult where
  session : Session
  result : Except String ToolResult
  actions : List BrokerAction
deriving Repr, DecidableEq

/-- The command map of controlLight (src/server.js:215-220): identity on the
four supported commands, undefined otherwise. -/
def commandMap (c : String) : Option String :=
  if c == "on" then some "on"
  else if c == "off" then some "off"
  else if c == "toggle" then some "toggle"
  else if c == "status" then some "status"
  else none

/-- The Chinese action text of controlLight (src/server.js:235-240). -/
def actionText (c : String) : Option String :=
  if c == "on" then some "开灯"
  else if c == "off" then some "关灯"
  else if c == "toggle" then some "切换灯光"
  else if c == "status" then some "查询状态"
  else none

/-- JS string interpolation of a possibly-absent property. -/
def optShow : Option String → String
  | some s => s
  | none => "undefined"

/-- Arguments of the controlLight tool. -/
structure ControlArgs where
  command : Option String
deriving Repr, DecidableEq

/-- `MQTTHandler.controlLight` (src/server.js:202-249). `pub` is the error
argument of the publish callback. -/
def controlLight (s : Session) (args : ControlArgs) (pub : PubOutcome) :
    OpResult :=
  match s.mqttClient, s.connected with
  | some c, true =>
    match s.config with
    | none => ⟨s, Except.error "❌ 配置信息丢失，请重新配置", []⟩
    | some cfg =>
      match args.command.bind commandMap with
      | none =>
        ⟨s, Except.error ("❌ 不支持的命令: " ++ optShow args.command), []⟩
      | some mqttCommand =>
        match pub with
        | PubOutcome.err m =>
          ⟨s, Except.error m, [BrokerAction.publish c cfg.topic mqttCommand]⟩
        | PubOutcome.ok =>
          ⟨s,
           Except.ok ⟨"text",
             "✅ 已发送" ++ optShow (actionText mqttCommand) ++ "命令到设备"⟩,
           [BrokerAction.publish c cfg.topic mqttCommand]⟩
  | _, _ => ⟨s, Except.error "❌ 未连接到MQTT服务器，请先调用connectBemfa", []⟩

/-- `MQTTHandler.disconnect` (src/server.js:251-271). `endErr` is the error
argument of the `end(false, \x7b\x7d, cb)` callback. -/
def disconnect (s : Session) (endErr : Option String) : OpResult :=
  match s.mqttClient, s.connected with
  | some c, true =>
    match endErr with
    | some m => ⟨s, Except.error m, [BrokerAction.endClientCb c]⟩
    | none =>
      ⟨{ s with connected := false, mqttClient := none },
       Except.ok ⟨"text", "✅ 已断开MQTT连接"⟩, [BrokerAction.endClientCb c]⟩
  | _, _ => ⟨s, Except.error "❌ 未连接", []⟩

/-- `MQTTHandler.getConfig` (src/server.js:273-292): never throws; returns
the no-config text, or the configuration rendering with the client id masked
to `***` plus its last four characters and the password masked to `***` when
set and `未设置` when empty. -/
def getConfig (s : Session) : Session × Except String ToolResult :=
  match s.config with
  | none => (s, Except.ok ⟨"text", "❌ 尚未配置巴法云参数"⟩)
  | some cfg =>
    let maskedClientId := "***" ++ cfg.clientId.takeRight 4
    let maskedPassword := if cfg.password == "" then "未设置" else "***"
    (s, Except.ok ⟨"text",
      "当前配置:\n服务器: " ++ cfg.host ++ ":" ++ toString cfg.port ++
      "\n主题: " ++ cfg.topic ++ "\n客户端ID: " ++ maskedClientId ++
      "\n用户名: " ++ (if cfg.username == "" then "未设置" else cfg.username) ++
      "\n密码: " ++ maskedPassword⟩)

/-- The text component of getConfig's result. -/
def getConfigText (s : Session) : String :=
  match (getConfig s).2 with
  | Except.ok t => t.text
  | Except.error e => e

/-- Substring containment on the underlying character lists. -/
def strContains (hay needle : String) : Bool :=
  listInfixOf needle.data hay.data

/-- An SSE chunk written by `sendMessageEvent` (src/server.js:294-300): the
`event: message` header line, then the `data:` line carrying the serialized
message. -/
inductive SseChunk where
  | eventHeader
  | data (method : String) (topic : String) (payload : String)
      (timestamp : String)
deriving Repr, DecidableEq

/-- `MQTTHandler.sendMessageEvent` for a broker-message notification
(src/server.js:294-300): returns early when the handle is null, otherwise
writes the two chunks to the session's own SSE handle. -/
def sendMessageEvent (sseRes : Option Nat)
    (topic payload timestamp : String) : List (Nat × SseChunk) :=
  match sseRes with
  | none => []
  | some r =>
    [(r, SseChunk.eventHeader),
     (r, SseChunk.data "notifications/message" topic payload timestamp)]

/-- The `message` handler installed at connect time (src/server.js:171-183):
a closure over the originating session, forwarding `\x7btopic, payload,
timestamp\x7d` to that session's own SSE handle. -/
def messageHandler (s : Session) (topic payload timestamp : String) :
    List (Nat × SseChunk) :=
  sendMessageEvent s.sseRes topic payload timestamp

/-! ## Example data used by witnesses and counterexamples -/

/-- A sample stored configuration. -/
def cfgEx : Config := ⟨"bemfa.com", 9501, "abc123", "Light001", "", ""⟩

/-- A fresh session as `SessionManager.create` builds it (handle 1). -/
def freshSession : Session := ⟨some 1, none, false, none⟩

/-- A session that is configured and Connected (client handle 7). -/
def connectedSession : Session := ⟨some 1, some 7, true, some cfgEx⟩

/-- A second fresh session with a distinct SSE handle. -/
def otherSession : Session := ⟨some 2, none, false, none⟩

/-- A configured but not yet connected session. -/
def configuredSession : Session := ⟨some 1, none, false, some cfgEx⟩

/-! ## Claims -/

/-- C1: an inbound broker message delivered on one session's connection is
forwarded only to that session's own SSE handle — every chunk the installed
message handler writes targets the originating session's `sseRes`, and none
targets the transport of any session with a different handle. -/
theorem c1_message_routed_to_own_transport (s1 s2 : Session)
    (t p ts : String) (hne : s1.sseRes ≠ s2.sseRes) :
    (∀ w ∈ messageHandler s1 t p ts, s1.sseRes = some w.1) ∧
    (∀ w ∈ messageHandler s1 t p ts, s2.sseRes ≠ some w.1) := by
  unfold messageHandler sendMessageEvent
  cases h : s1.sseRes with
  | none => simp
  | some r =>
    rw [h] at hne
    refine ⟨?_, ?_⟩ <;> intro w hw <;>
      simp only [List.mem_cons, List.not_mem_nil, or_false] at hw <;>
      rcases hw with rfl | rfl <;> simp_all [Ne.symm]

/-- Witness for C1 at two concrete sessions with distinct SSE handles. -/
theorem c1_witness :
    (∀ w ∈ messageHandler freshSession "Light001" "on" "2026-10-11",
        freshSession.sseRes = some w.1) ∧
    (∀ w ∈ messageHandler freshSession "Light001" "on" "2026-10-11",
        otherSession.sseRes ≠ some w.1) :=
  c1_message_routed_to_own_transport freshSession otherSession
    "Light001" "on" "2026-10-11" (by decide)

/-- C2 counterexample: with a configured session that is Connected (flag set,
client handle 7), connect does not reset the session to Disconnected before
opening the new connection — at the point after closing the prior client and
before any broker event, the connected flag is still true and the old handle
is still stored. -/
theorem c2_counterexample :
    ¬ (((connect connectedSession 8 ConnectOutcome.ack none).preSession).connected = false ∧
       ((connect connectedSession 8 ConnectOutcome.ack none).preSession).mqttClient = none) := by
  decide

/-- C2 amended: when a Broker Connection already exists, connect first issues
an end on that prior client — it is the first broker action, preceding the
open of the new connection — so at most one live connection exists per
session; but the session's connected flag and client handle are left
untouched (not reset to Disconnected) until the new connect event runs. -/
theorem c2_close_prior_first (s : Session) (c : Nat) (cfg : Config)
    (nc : Nat) (out : ConnectOutcome) (sub : Option String)
    (h1 : s.mqttClient = some c) (h2 : s.config = some cfg) :
    (connect s nc out sub).actions.head? = some (BrokerAction.endClient c) ∧
    (connect s nc out sub).preSession = s := by
  cases out <;> simp [connect, h1, h2]

/-- Witness for C2's amended theorem at a concrete Connected session. -/
theorem c2_witness :
    (connect connectedSession 8 ConnectOutcome.ack none).actions.head? =
      some (BrokerAction.endClient 7) ∧
    (connect connectedSession 8 ConnectOutcome.ack none).preSession =
      connectedSession :=
  c2_close_prior_first connectedSession 7 cfgEx 8 ConnectOutcome.ack none
    rfl rfl

/-- C3 counterexample: a configured session that is already Connected (flag
true, stale handle 7) and whose reconnect attempt fails with a broker error
event is left with the connected flag still true and the stale handle still
stored — it is not transitioned back to Disconnected. -/
theorem c3_counterexample :
    ((connect connectedSession 8 (ConnectOutcome.err "ECONNREFUSED") none).session).connected
        = true ∧
    ((connect connectedSession 8 (ConnectOutcome.err "ECONNREFUSED") none).session).mqttClient
        = some 7 := by
  decide

/-- C3 amended: when the connect attempt's broker error event fires, the call
surfaces that error, and every session field is left exactly as before the
call — a session that was Disconnected stays Disconnected, but a previously
Connected session keeps its stale connected flag and client handle. -/
theorem c3_error_leaves_state (s : Session) (cfg : Config) (nc : Nat)
    (m : String) (sub : Option String) (h : s.config = some cfg) :
    (connect s nc (ConnectOutcome.err m) sub).session = s ∧
    (connect s nc (ConnectOutcome.err m) sub).result = Except.error m := by
  simp [connect, h]

/-- Witness for C3's amended theorem at a concrete configured session. -/
theorem c3_witness :
    (connect configuredSession 8 (ConnectOutcome.err "ECONNREFUSED") none).session =
      configuredSession ∧
    (connect configuredSession 8 (ConnectOutcome.err "ECONNREFUSED") none).result =
      Except.error "ECONNREFUSED" :=
  c3_error_leaves_state configuredSession cfgEx 8 "ECONNREFUSED" none rfl

/-- C4: for every session whose connected flag is still false (no successful
connect yet, whether or not a configuration is stored), connect fails with
the NotConfigured error when no configuration is stored, and controlLight
and disconnect fail with the NotConnected errors; each failed call leaves
the session unchanged and performs no broker action. -/
theorem c4_precondition_errors (s : Session) (nc : Nat)
    (out : ConnectOutcome) (sub endErr : Option String) (args : ControlArgs)
    (pub : PubOutcome) (h : s.connected = false) :
    (s.config = none →
      (connect s nc out sub).result =
        Except.error "❌ 请先调用 configureBemfa 配置连接参数" ∧
      (connect s nc out sub).session = s ∧ (connect s nc out sub).actions = []) ∧
    ((controlLight s args pub).result =
        Except.error "❌ 未连接到MQTT服务器，请先调用connectBemfa" ∧
      (controlLight s args pub).session = s ∧ (controlLight s args pub).actions = []) ∧
    ((disconnect s endErr).result = Except.error "❌ 未连接" ∧
      (disconnect s endErr).session = s ∧ (disconnect s endErr).actions = []) := by
  refine ⟨?_, ?_, ?_⟩
  · intro h1
    simp [connect, h1]
  · cases hm : s.mqttClient <;> simp [controlLight, h, hm]
  · cases hm : s.mqttClient <;> simp [disconnect, h, hm]

/-- Witness for C4 at a configured but not yet connected session: the
NotConnected conjuncts hold there even though a configuration is stored. -/
theorem c4_witness :
    (configuredSession.config = none →
      (connect configuredSession 8 ConnectOutcome.ack none).result =
        Except.error "❌ 请先调用 configureBemfa 配置连接参数" ∧
      (connect configuredSession 8 ConnectOutcome.ack none).session =
        configuredSession ∧
      (connect configuredSession 8 ConnectOutcome.ack none).actions = []) ∧
    ((controlLight configuredSession ⟨some "on"⟩ PubOutcome.ok).result =
        Except.error "❌ 未连接到MQTT服务器，请先调用connectBemfa" ∧
      (controlLight configuredSession ⟨some "on"⟩ PubOutcome.ok).session =
        configuredSession ∧
      (controlLight configuredSession ⟨some "on"⟩ PubOutcome.ok).actions = []) ∧
    ((disconnect configuredSession none).result = Except.error "❌ 未连接" ∧
      (disconnect configuredSession none).session = configuredSession ∧
      (disconnect configuredSession none).actions = []) :=
  c4_precondition_errors configuredSession 8 ConnectOutcome.ack none none
    ⟨some "on"⟩ PubOutcome.ok rfl

/-- A configuration whose client identifier has only four characters. -/
def cfgShortId : Config := ⟨"bemfa.com", 9501, "abcd", "Light002", "", "secret"⟩

/-- A session storing `cfgShortId`. -/
def sessionShortId : Session := ⟨some 3, none, false, some cfgShortId⟩

/-- C6 counterexample: for the stored client identifier "abcd" (four
characters), getConfig's text contains the full client identifier in
plaintext — the mask `***` ++ last-four-characters reproduces it whole. -/
theorem c6_counterexample :
    strContains (getConfigText sessionShortId) "abcd" = true := by
  decide

/-- C6 amended: getConfig's output depends on the stored client identifier
only through its last four characters and on the stored password only
through whether it is empty (rendered `***` when set, `未设置` when empty);
the raw values are never interpolated. The literal never-contains claim
fails because a client identifier of at most four characters appears whole
inside its own mask. -/
theorem c6_masking (s1 s2 : Session) (c1 c2 : Config)
    (h1 : s1.config = some c1) (h2 : s2.config = some c2)
    (hh : c1.host = c2.host) (hp : c1.port = c2.port)
    (ht : c1.topic = c2.topic) (hu : c1.username = c2.username)
    (hid : c1.clientId.takeRight 4 = c2.clientId.takeRight 4)
    (hpw : (c1.password == "") = (c2.password == "")) :
    (getConfig s1).2 = (getConfig s2).2 := by
  simp [getConfig, h1, h2, hh, hp, ht, hu, hid, hpw]

/-- A configuration sharing everything with `cfgLongId2` except the raw
client identifier (same last four characters) and the raw password. -/
def cfgLongId1 : Config := ⟨"bemfa.com", 9501, "abcdef", "Light003", "u", "secretA"⟩

/-- See `cfgLongId1`. -/
def cfgLongId2 : Config := ⟨"bemfa.com", 9501, "zzcdef", "Light003", "u", "secretB"⟩

/-- A session storing `cfgLongId1`. -/
def sessionLongId1 : Session := ⟨some 4, none, false, some cfgLongId1⟩

/-- A session storing `cfgLongId2`. -/
def sessionLongId2 : Session := ⟨some 5, none, false, some cfgLongId2⟩

/-- Witness for C6's amended theorem: two sessions differing in raw client
identifier and raw password produce identical getConfig output. -/
theorem c6_witness :
    (getConfig sessionLongId1).2 = (getConfig sessionLongId2).2 :=
  c6_masking sessionLongId1 sessionLongId2 cfgLongId1 cfgLongId2
    rfl rfl rfl rfl rfl rfl (by decide) (by decide)

/-- C7: configure fails with the ValidationError exactly when a required
field (client identifier or topic) is absent or empty; it performs no broker
action in any case; it never touches the connection handle, the connected
flag or the SSE handle (so configuring while Connected leaves the live
connection alone); on success it stores the configuration snapshot, and on
failure it leaves the whole session unchanged. -/
theorem c7_configure (s : Session) (args : ConfigureArgs) :
    (configure s args).2.2 = [] ∧
    (configure s args).1.mqttClient = s.mqttClient ∧
    (configure s args).1.connected = s.connected ∧
    (configure s args).1.sseRes = s.sseRes ∧
    ((∃ e, (configure s args).2.1 = Except.error e) ↔
      (truthyStr args.clientId = false ∨ truthyStr args.topic = false)) ∧
    ((truthyStr args.clientId = true ∧ truthyStr args.topic = true) →
      (configure s args).1.config = some (mkConfig args)) ∧
    ((truthyStr args.clientId = false ∨ truthyStr args.topic = false) →
      (configure s args).1 = s) := by
  unfold configure missingFields
  cases hc : truthyStr args.clientId <;> cases ht : truthyStr args.topic <;>
    simp [hc, ht]

/-- C8: a successful disconnect of a Connected session clears the connected
flag, releases the client handle and returns the success text, while the
stored configuration is retained unchanged — so a subsequent connect on the
resulting session reuses it and succeeds on broker acknowledgement. -/
theorem c8_disconnect (s : Session) (c : Nat) (nc : Nat)
    (sub : Option String)
    (h1 : s.mqttClient = some c) (h2 : s.connected = true) :
    (disconnect s none).session.connected = false ∧
    (disconnect s none).session.mqttClient = none ∧
    (disconnect s none).session.config = s.config ∧
    (disconnect s none).result = Except.ok ⟨"text", "✅ 已断开MQTT连接"⟩ ∧
    (∀ cfg, s.config = some cfg →
      (connect (disconnect s none).session nc ConnectOutcome.ack sub).result =
        Except.ok ⟨"text", "✅ 成功连接到巴法云MQTT服务器，主题: " ++ cfg.topic⟩) := by
  obtain ⟨sr, mc, cn, cf⟩ := s
  cases h1
  cases h2
  refine ⟨rfl, rfl, rfl, rfl, ?_⟩
  intro cfg hcfg
  cases hcfg
  simp [disconnect, connect]

/-- Witness for C8 at a concrete Connected session. -/
theorem c8_witness :
    (disconnect connectedSession none).session.connected = false ∧
    (disconnect connectedSession none).session.mqttClient = none ∧
    (disconnect connectedSession none).session.config = connectedSession.config ∧
    (disconnect connectedSession none).result =
      Except.ok ⟨"text", "✅ 已断开MQTT连接"⟩ ∧
    (∀ cfg, connectedSession.config = some cfg →
      (connect (disconnect connectedSession none).session 9
          ConnectOutcome.ack none).result =
        Except.ok ⟨"text", "✅ 成功连接到巴法云MQTT服务器，主题: " ++ cfg.topic⟩) :=
  c8_disconnect connectedSession 7 9 none rfl rfl

/-- C9: connect's outward result and the resulting session state are
independent of the subscribe outcome — they are identical for any two
subscribe-callback outcomes; on broker acknowledgement the call resolves
with the success text even when subscription failed, and a subscribe failure
only adds an error log line to the recorded actions. -/
theorem c9_connect_independent_of_subscribe (s : Session) (nc : Nat)
    (out : ConnectOutcome) (sub1 sub2 : Option String) :
    (connect s nc out sub1).result = (connect s nc out sub2).result ∧
    (connect s nc out sub1).session = (connect s nc out sub2).session ∧
    (∀ cfg, s.config = some cfg →
      (connect s nc ConnectOutcome.ack sub1).result =
        Except.ok ⟨"text", "✅ 成功连接到巴法云MQTT服务器，主题: " ++ cfg.topic⟩ ∧
      ∀ e, sub1 = some e →
        BrokerAction.logError ("Subscribe error " ++ e) ∈
          (connect s nc ConnectOutcome.ack sub1).actions) := by
  refine ⟨?_, ?_, ?_⟩
  · cases h : s.config <;> cases out <;> simp [connect, h]
  · cases h : s.config <;> cases out <;> simp [connect, h]
  · intro cfg hcfg
    refine ⟨by simp [connect, hcfg], ?_⟩
    intro e he
    cases he
    cases hm : s.mqttClient <;> simp [connect, hcfg, hm, subscribeLog]

/-- C10: getConfig on a session with no stored configuration does not throw:
it returns the ordinary not-configured text as a non-error result and leaves
the session unchanged. -/
theorem c10_getconfig_unconfigured (s : Session) (h : s.config = none) :
    getConfig s = (s, Except.ok ⟨"text", "❌ 尚未配置巴法云参数"⟩) := by
  simp [getConfig, h]

/-- Witness for C10 at the session `SessionManager.create` builds. -/
theorem c10_witness :
    getConfig otherSession =
      (otherSession, Except.ok ⟨"text", "❌ 尚未配置巴法云参数"⟩) :=
  c10_getconfig_unconfigured otherSession rfl
